import Mathlib

/-!
Verification of the resilient API-call core of the last9
deployment-marker action: error taxonomy, HTTP error classification,
Retry-After parsing, exponential backoff, the retry executor, the token
cache, configuration loading, and the orchestrator's output reporting.

Each definition is a shallow embedding of the corresponding TypeScript
source function.  JavaScript runtime primitives that the source calls
(`Date` string parsing, `JSON.parse`, `Math.random`, the wall clock) are
passed in as explicit parameters; machine numbers are modelled as `Int`
(epoch milliseconds and seconds, status codes) and `Rat` (the float
arithmetic of the backoff computation).
-/

/-! ## Error taxonomy (src/utils/errors.ts) -/

/-- Error codes for categorization (`enum ErrorCode`); the plugin and
circuit-breaker codes are omitted because no constructor used by the
main flow carries them. -/
inductive ErrorCode where
  | CONFIG_ERROR
  | INVALID_INPUT
  | VALIDATION_ERROR
  | TOKEN_EXCHANGE_ERROR
  | TOKEN_EXPIRED
  | UNAUTHORIZED
  | NETWORK_ERROR
  | TIMEOUT_ERROR
  | CONNECTION_ERROR
  | API_ERROR
  | RATE_LIMIT_ERROR
  | SERVER_ERROR
  | UNKNOWN_ERROR
  deriving DecidableEq, Repr

/-- The taxonomy of `Last9Error` subclasses, as a closed sum.  Each
constructor corresponds to one class; only the fields the class sets
beyond the base class are carried (`message`, and where present a
status code, validation errors or a rate-limit hint). -/
inductive Last9Error where
  | configError (message : String)
  | invalidInputError (message : String)
  | validationError (message : String) (errors : List String)
  | tokenExchangeError (message : String) (statusCode : Option Nat)
  | tokenExpiredError (message : String)
  | unauthorizedError (message : String)
  | networkError (message : String)
  | timeoutError (message : String)
  | connectionError (message : String)
  | apiError (message : String) (statusCode : Nat)
  | rateLimitError (message : String) (retryAfterMs : Option Int)
  | serverError (message : String) (statusCode : Nat)
  | unknownError (message : String)
  deriving DecidableEq, Repr

namespace Last9Error

/-- The `code` field fixed by each subclass. -/
def code : Last9Error → ErrorCode
  | configError _ => ErrorCode.CONFIG_ERROR
  | invalidInputError _ => ErrorCode.INVALID_INPUT
  | validationError _ _ => ErrorCode.VALIDATION_ERROR
  | tokenExchangeError _ _ => ErrorCode.TOKEN_EXCHANGE_ERROR
  | tokenExpiredError _ => ErrorCode.TOKEN_EXPIRED
  | unauthorizedError _ => ErrorCode.UNAUTHORIZED
  | networkError _ => ErrorCode.NETWORK_ERROR
  | timeoutError _ => ErrorCode.TIMEOUT_ERROR
  | connectionError _ => ErrorCode.CONNECTION_ERROR
  | apiError _ _ => ErrorCode.API_ERROR
  | rateLimitError _ _ => ErrorCode.RATE_LIMIT_ERROR
  | serverError _ _ => ErrorCode.SERVER_ERROR
  | unknownError _ => ErrorCode.UNKNOWN_ERROR

/-- The `retryable` flag: fixed per subclass, except `ApiError` where the
constructor computes `statusCode >= 500 || statusCode === 429`. -/
def retryable : Last9Error → Bool
  | configError _ => false
  | invalidInputError _ => false
  | validationError _ _ => false
  | tokenExchangeError _ _ => false
  | tokenExpiredError _ => true
  | unauthorizedError _ => false
  | networkError _ => true
  | timeoutError _ => true
  | connectionError _ => true
  | apiError _ statusCode => decide (500 ≤ statusCode) || decide (statusCode = 429)
  | rateLimitError _ _ => true
  | serverError _ _ => true
  | unknownError _ => false

/-- The inherited `message` field. -/
def message : Last9Error → String
  | configError m => m
  | invalidInputError m => m
  | validationError m _ => m
  | tokenExchangeError m _ => m
  | tokenExpiredError m => m
  | unauthorizedError m => m
  | networkError m => m
  | timeoutError m => m
  | connectionError m => m
  | apiError m _ => m
  | rateLimitError m _ => m
  | serverError m _ => m
  | unknownError m => m

/-- The `retryAfterMs` hint, present only on `RateLimitError`. -/
def retryAfterMs : Last9Error → Option Int
  | rateLimitError _ r => r
  | _ => none

end Last9Error

/-- `isRetryableError`: every error thrown inside the modelled core is a
`Last9Error`, so the `instanceof` guard always passes. -/
def isRetryableError (e : Last9Error) : Bool := e.retryable

/-! ## HTTP status helpers and error factory (src/utils/http.ts) -/

def HTTP_STATUS_TIMEOUT : Nat := 408
def HTTP_STATUS_TOO_MANY_REQUESTS : Nat := 429
def HTTP_STATUS_GATEWAY_TIMEOUT : Nat := 504

/-- `isSuccessStatus`. -/
def isSuccessStatus (statusCode : Nat) : Bool :=
  200 ≤ statusCode && statusCode < 300

/-- `isClientError`. -/
def isClientError (statusCode : Nat) : Bool :=
  400 ≤ statusCode && statusCode < 500

/-- `isServerError`. -/
def isServerError (statusCode : Nat) : Bool :=
  500 ≤ statusCode && statusCode < 600

/-- `isRetryableStatus`: 5xx and 429. -/
def isRetryableStatus (statusCode : Nat) : Bool :=
  isServerError statusCode || statusCode = HTTP_STATUS_TOO_MANY_REQUESTS

/-- JavaScript whitespace skipped by `parseInt`. -/
def isJsSpace (c : Char) : Bool :=
  c = ' ' || c = '\t' || c = '\n' || c = '\r' || c = '\x0b' || c = '\x0c'

/-- Value of the longest leading run of decimal digits; `none` when the
run is empty (`parseInt` returns `NaN` then). -/
def jsDigitsValue (cs : List Char) : Option Nat :=
  let ds := cs.takeWhile Char.isDigit
  if ds.isEmpty then none
  else some (ds.foldl (fun a c => a * 10 + (c.toNat - 48)) 0)

/-- `parseInt(s, 10)`: skip leading whitespace, optional sign, then the
longest decimal-digit prefix; `none` models `NaN`. -/
def jsParseInt10 (s : String) : Option Int :=
  match s.toList.dropWhile isJsSpace with
  | '-' :: rest => (jsDigitsValue rest).map (fun n => -(n : Int))
  | '+' :: rest => (jsDigitsValue rest).map (fun n => (n : Int))
  | rest => (jsDigitsValue rest).map (fun n => (n : Int))

/-- `parseRetryAfter`.  `parseDate` stands for the JavaScript
`new Date(string)` parser (epoch milliseconds, `none` for an invalid
date) and `nowMs` for `Date.now()`.  An absent or empty header value is
falsy and yields no hint. -/
def parseRetryAfter (parseDate : String → Option Int) (nowMs : Int)
    (retryAfter : Option String) : Option Int :=
  match retryAfter with
  | none => none
  | some s =>
    if s = "" then none
    else
      match jsParseInt10 s with
      | some seconds => some (seconds * 1000)
      | none =>
        match parseDate s with
        | some t => some (max 0 (t - nowMs))
        | none => none

/-- `createHttpError`: map an HTTP status (plus the `retry-after` value
from the context record) to a taxonomy error. -/
def createHttpError (parseDate : String → Option Int) (nowMs : Int)
    (statusCode : Nat) (message : String)
    (retryAfterHeader : Option String) : Last9Error :=
  if statusCode = HTTP_STATUS_TOO_MANY_REQUESTS then
    Last9Error.rateLimitError message (parseRetryAfter parseDate nowMs retryAfterHeader)
  else if statusCode = HTTP_STATUS_TIMEOUT || statusCode = HTTP_STATUS_GATEWAY_TIMEOUT then
    Last9Error.timeoutError message
  else if isServerError statusCode then
    Last9Error.serverError message statusCode
  else if isClientError statusCode then
    Last9Error.apiError message statusCode
  else
    Last9Error.apiError message statusCode

/-! ## Time utilities (src/utils/time.ts) -/

/-- `isExpired` on the numeric branch: `timestamp` is an expiry in epoch
seconds, converted to milliseconds and compared against `Date.now()`
after subtracting the buffer. -/
def isExpired (timestampSec : Int) (bufferSeconds : Int) (nowMs : Int) : Bool :=
  timestampSec * 1000 - bufferSeconds * 1000 ≤ nowMs

/-- `calculateBackoff`: exponential backoff with 30 percent jitter.
`rand` is the `Math.random()` draw for this call. -/
def calculateBackoff (attemptNumber : Nat) (baseMs maxMs : ℚ) (rand : ℚ) : ℚ :=
  let exponential : ℚ := 2 ^ attemptNumber * baseMs
  let jitter : ℚ := rand * (3 / 10) * exponential
  min (exponential + jitter) maxMs

/-! ## Retry executor (src/retry.ts) -/

/-- `RetryConfig`.  `maxAttempts` is an `Int` because the JavaScript
number arriving from configuration parsing may be non-positive. -/
structure RetryConfig where
  maxAttempts : Int
  backoffMs : ℚ
  maxBackoffMs : ℚ
  deriving DecidableEq, Repr

/-- Result of a `withRetry` call: a returned value, a thrown
`Last9Error`, or the `throw lastError` reached with `lastError` still
`undefined` (only possible when the loop body never ran). -/
inductive RetryResult (T : Type) where
  | ok (value : T)
  | err (e : Last9Error)
  | errUndefined
  deriving DecidableEq, Repr

/-- Observable outcome of `withRetry`: the result, the number of times
the operation was invoked, and the list of backoff sleeps in order. -/
structure RetryOutcome (T : Type) where
  result : RetryResult T
  calls : Nat
  sleeps : List ℚ
  deriving DecidableEq, Repr

/-- The `throw lastError` after the loop: when the loop body never ran,
`lastError` is still `undefined` and an undefined value is thrown. -/
def throwLastError {T : Type} : Option Last9Error → RetryOutcome T
  | some e => ⟨RetryResult.err e, 0, []⟩
  | none => ⟨RetryResult.errUndefined, 0, []⟩

/-- One loop iteration's handling of a failed invocation at `attempt`:
break on the last allowed attempt (falling through to
`throw lastError`, with `lastError = e`), throw immediately when the
error is not retryable, otherwise sleep the computed backoff and
continue with the outcome `rest` of the remaining iterations. -/
def handleAttemptFailure {T : Type} (config : RetryConfig) (jitter : Nat → ℚ)
    (attempt : Nat) (e : Last9Error) (rest : Unit → RetryOutcome T) : RetryOutcome T :=
  -- don't retry if this is the last attempt: break, then throw lastError (= e)
  if (attempt : Int) = config.maxAttempts - 1 then
    ⟨RetryResult.err e, 1, []⟩
  -- don't retry if error is not retryable
  else if ¬ isRetryableError e then
    ⟨RetryResult.err e, 1, []⟩
  else
    let backoffTime := calculateBackoff attempt config.backoffMs config.maxBackoffMs (jitter attempt)
    let out := rest ()
    ⟨out.result, out.calls + 1, backoffTime :: out.sleeps⟩

/-- The `for` loop of `withRetry`, entered at `attempt` with the current
`lastError`.  `op i` is the outcome of the i-th invocation of the
operation (0-indexed) and `jitter i` the `Math.random()` draw used for
the backoff after attempt `i`. -/
def withRetryGo {T : Type} (op : Nat → Except Last9Error T) (config : RetryConfig)
    (jitter : Nat → ℚ) (attempt : Nat) (lastError : Option Last9Error) :
    RetryOutcome T :=
  if _h : (attempt : Int) < config.maxAttempts then
    match op attempt with
    | Except.ok result => ⟨RetryResult.ok result, 1, []⟩
    | Except.error e =>
      handleAttemptFailure config jitter attempt e
        (fun _ => withRetryGo op config jitter (attempt + 1) (some e))
  else
    -- loop exhausted: throw lastError
    throwLastError lastError
termination_by (config.maxAttempts - attempt).toNat
decreasing_by
  omega

/-- `withRetry`. -/
def withRetry {T : Type} (op : Nat → Except Last9Error T) (config : RetryConfig)
    (jitter : Nat → ℚ) : RetryOutcome T :=
  withRetryGo op config jitter 0 none

/-! ## Token manager (src/providers/api/token-manager.ts) -/

/-- `TokenResponse` as returned by `refreshAccessToken`; only the fields
the token manager reads are modelled.  `expires_at` is epoch seconds. -/
structure TokenResponse where
  access_token : String
  refresh_token : String
  expires_at : Int
  deriving DecidableEq, Repr

/-- `CachedToken`; the two `Date` fields are epoch milliseconds. -/
structure CachedToken where
  accessToken : String
  refreshToken : String
  expiresAtMs : Int
  cachedAtMs : Int
  deriving DecidableEq, Repr

/-- Token cache contents: the `Map<string, CachedToken>` as an
association list with unique keys. -/
abbrev TokenCache := List (String × CachedToken)

/-- `Map.get`. -/
def mapGet (cache : TokenCache) (key : String) : Option CachedToken :=
  match cache with
  | [] => none
  | (k, v) :: rest => if k = key then some v else mapGet rest key

/-- `Map.set`: replace the binding in place when the key is present,
otherwise append. -/
def mapSet (cache : TokenCache) (key : String) (value : CachedToken) : TokenCache :=
  match cache with
  | [] => [(key, value)]
  | (k, v) :: rest =>
    if k = key then (key, value) :: rest else (k, v) :: mapSet rest key value

/-- `Map.delete`: remove the binding for the key. -/
def mapDelete (cache : TokenCache) (key : String) : TokenCache :=
  cache.filter (fun p => p.1 ≠ key)

/-- `isTokenExpired`: delegate to `isExpired` with the configured
expiry buffer. -/
def isTokenExpired (expiryBufferSeconds : Int) (expiresAtSec : Int) (nowMs : Int) : Bool :=
  isExpired expiresAtSec expiryBufferSeconds nowMs

deriving instance DecidableEq for Except

/-- Observable outcome of one `getAccessToken` call: the returned (or
thrown) value, the cache afterwards, and whether the exchange operation
was invoked. -/
structure TokenAccessOutcome where
  result : Except Last9Error String
  cache : TokenCache
  exchanged : Bool
  deriving DecidableEq, Repr

/-- The exchange path of `getAccessToken`: call
`apiClient.refreshAccessToken`; on success cache and return the new
token, on failure delete the entry and wrap the error as a
`TokenExchangeError`. -/
def exchangeAndCache (exchange : Except Last9Error TokenResponse) (nowMs : Int)
    (cache : TokenCache) (cacheKey : String) : TokenAccessOutcome :=
  match exchange with
  | Except.ok tokenResponse =>
    let cachedToken : CachedToken :=
      { accessToken := tokenResponse.access_token
        refreshToken := tokenResponse.refresh_token
        expiresAtMs := tokenResponse.expires_at * 1000
        cachedAtMs := nowMs }
    ⟨Except.ok tokenResponse.access_token, mapSet cache cacheKey cachedToken, true⟩
  | Except.error e =>
    ⟨Except.error (Last9Error.tokenExchangeError
        ("Failed to exchange refresh token: " ++ e.message) none),
      mapDelete cache cacheKey, true⟩

/-- `TokenManager.getAccessToken`.  `getCacheKey` stands for the SHA-256
digest used to derive the cache key, `exchange` for the outcome of
`apiClient.refreshAccessToken(refreshToken)` at this instant, and
`nowMs` for the wall clock. -/
def getAccessToken (expiryBufferSeconds : Int) (getCacheKey : String → String)
    (exchange : Except Last9Error TokenResponse) (nowMs : Int)
    (cache : TokenCache) (refreshToken : String) : TokenAccessOutcome :=
  let cacheKey := getCacheKey refreshToken
  match mapGet cache cacheKey with
  | some cached =>
    if ¬ isTokenExpired expiryBufferSeconds (Int.fdiv cached.expiresAtMs 1000) nowMs then
      ⟨Except.ok cached.accessToken, cache, false⟩
    else
      exchangeAndCache exchange nowMs cache cacheKey
  | none => exchangeAndCache exchange nowMs cache cacheKey

/-! ## Configuration loading (src/config.ts) -/

/-- `event_state` values. -/
inductive EventState where
  | start
  | stop
  | both
  deriving DecidableEq, Repr

/-- Scalar attribute values (string, number, boolean). -/
inductive AttrValue where
  | str (s : String)
  | num (n : ℚ)
  | bool (b : Bool)
  deriving DecidableEq, Repr

/-- JSON values, the result type of the `JSON.parse` primitive. -/
inductive JsValue where
  | str (s : String)
  | num (n : ℚ)
  | bool (b : Bool)
  | null
  | arr (elems : List JsValue)
  | obj (fields : List (String × JsValue))

/-- `ActionConfig`.  `maxRetryAttempts` and the backoff values are
`Option Int`, `none` standing for the `NaN` that `parseInt` yields on
garbage input. -/
structure ActionConfig where
  apiBaseUrl : String
  orgSlug : String
  refreshToken : String
  dataSourceName : Option String
  eventName : String
  eventState : EventState
  includeGitHubAttributes : Bool
  customAttributes : List (String × AttrValue)
  maxRetryAttempts : Option Int
  retryBackoffMs : Option Int
  maxRetryBackoffMs : Option Int
  deriving DecidableEq, Repr

/-- `GitHubContextProvider.getInput` over a given set of action inputs
(GitHub reports a missing input as the empty string): throws
`InvalidInputError` when a required input is empty. -/
def getInput (inputs : List (String × String)) (name : String)
    (required : Bool) : Except Last9Error String :=
  let value := (inputs.lookup name).getD ""
  if required && value = "" then
    Except.error (Last9Error.invalidInputError ("Required input " ++ name ++ " is missing"))
  else
    Except.ok value

/-- JavaScript `a || b` on strings: the empty string is falsy. -/
def jsOrString (a b : String) : String :=
  if a = "" then b else a

/-- JavaScript `toLowerCase()` (on the ASCII configuration values in
play). -/
def jsToLowerCase (s : String) : String :=
  String.mk (s.data.map Char.toLower)

/-- JavaScript `trim()`: strip leading and trailing whitespace. -/
def jsTrim (s : String) : String :=
  String.mk (((s.data.dropWhile isJsSpace).reverse.dropWhile isJsSpace).reverse)

/-- `parseEventState`. -/
def parseEventState (value : String) : Except Last9Error EventState :=
  let normalized := jsTrim (jsToLowerCase value)
  if normalized = "start" then Except.ok EventState.start
  else if normalized = "stop" then Except.ok EventState.stop
  else if normalized = "both" then Except.ok EventState.both
  else Except.error (Last9Error.invalidInputError
    ("Invalid event_state: " ++ value ++ ". Must be start, stop, or both"))

/-- `parseBoolean`. -/
def parseBoolean (value : String) : Bool :=
  let normalized := jsTrim (jsToLowerCase value)
  normalized = "true" || normalized = "1" || normalized = "yes"

/-- The per-entry validation loop of `parseCustomAttributes`: every
value must be a string, number or boolean. -/
def validateAttributeEntries :
    List (String × JsValue) → Except Last9Error (List (String × AttrValue))
  | [] => Except.ok []
  | (key, value) :: rest =>
    match value with
    | JsValue.str s => do
      let tail ← validateAttributeEntries rest
      Except.ok ((key, AttrValue.str s) :: tail)
    | JsValue.num n => do
      let tail ← validateAttributeEntries rest
      Except.ok ((key, AttrValue.num n) :: tail)
    | JsValue.bool b => do
      let tail ← validateAttributeEntries rest
      Except.ok ((key, AttrValue.bool b) :: tail)
    | _ => Except.error (Last9Error.configError
        ("Invalid attribute value for " ++ key ++ ": must be string, number, or boolean"))

/-- `parseCustomAttributes`.  `jsonParse` stands for `JSON.parse`
(`none` models a parse exception). -/
def parseCustomAttributes (jsonParse : String → Option JsValue)
    (value : String) : Except Last9Error (List (String × AttrValue)) :=
  if value = "" || jsTrim value = "" then Except.ok []
  else
    match jsonParse value with
    | none => Except.error (Last9Error.configError
        "Failed to parse custom_attributes as JSON")
    | some parsed =>
      match parsed with
      | JsValue.obj fields => validateAttributeEntries fields
      | _ => Except.error (Last9Error.configError "custom_attributes must be a JSON object")

/-- `loadConfig` over a set of action inputs.  Note: no `env` (and no
`service_name`) input is read anywhere in this function, although the
caller in `index.ts` and the README treat `env` as a required input. -/
def loadConfig (jsonParse : String → Option JsValue)
    (inputs : List (String × String)) : Except Last9Error ActionConfig := do
  let refreshToken ← getInput inputs "refresh_token" true
  let orgSlug ← getInput inputs "org_slug" true
  let apiBaseUrl := jsOrString (← getInput inputs "api_base_url" false) "https://app.last9.io"
  let eventName := jsOrString (← getInput inputs "event_name" false) "deployment"
  let eventState ← parseEventState (jsOrString (← getInput inputs "event_state" false) "stop")
  let dataSourceNameRaw ← getInput inputs "data_source_name" false
  let dataSourceName := if dataSourceNameRaw = "" then none else some dataSourceNameRaw
  let includeGitHubAttributes :=
    parseBoolean (jsOrString (← getInput inputs "include_github_attributes" false) "true")
  let customAttributes ← parseCustomAttributes jsonParse
    (← getInput inputs "custom_attributes" false)
  let maxRetryAttempts :=
    jsParseInt10 (jsOrString (← getInput inputs "max_retry_attempts" false) "3")
  let retryBackoffMs :=
    jsParseInt10 (jsOrString (← getInput inputs "retry_backoff_ms" false) "1000")
  let maxRetryBackoffMs :=
    jsParseInt10 (jsOrString (← getInput inputs "max_retry_backoff_ms" false) "30000")
  Except.ok
    { apiBaseUrl := apiBaseUrl
      orgSlug := orgSlug
      refreshToken := refreshToken
      dataSourceName := dataSourceName
      eventName := eventName
      eventState := eventState
      includeGitHubAttributes := includeGitHubAttributes
      customAttributes := customAttributes
      maxRetryAttempts := maxRetryAttempts
      retryBackoffMs := retryBackoffMs
      maxRetryBackoffMs := maxRetryBackoffMs }

/-! ## Orchestrator (src/index.ts, function run) -/

/-- `ChangeEventResponse` as produced by `sendChangeEvent`. -/
structure ChangeEventResponse where
  success : Bool
  event_id : Option String
  timestamp : Option String
  deriving DecidableEq, Repr

/-- JavaScript `a || b` where `a` is `string | undefined`:
`undefined` and the empty string are falsy. -/
def jsOrOptString (a : Option String) (b : String) : String :=
  match a with
  | none => b
  | some s => if s = "" then b else s

/-- The outcomes of the awaited steps of one `run()` invocation, in
program order.  Each send is the outcome of the `withRetry`-wrapped
call; the event timestamps are the ISO strings stamped by
`createDeploymentEvent` when the event was built. -/
structure RunScenario where
  eventState : EventState
  tokenResult : Except Last9Error String
  startSend : Except Last9Error ChangeEventResponse
  startEventTimestamp : String
  stopSend : Except Last9Error ChangeEventResponse
  stopEventTimestamp : String

/-- What one `run()` invocation reports: the outputs set (name-value
pairs in order) and whether `core.setFailed` was called. -/
structure RunOutcome where
  outputs : List (String × String)
  failed : Bool
  deriving DecidableEq, Repr

/-- The `catch` block of `run()`: `core.setFailed(...)` and the single
output `success=false`.  No timestamp output is set on this path. -/
def runFailureOutcome : RunOutcome :=
  ⟨[("success", "false")], true⟩

/-- Truthiness guard `if (startTimestamp)` before `setOutput`. -/
def timestampOutput (name : String) : Option String → List (String × String)
  | none => []
  | some t => if t = "" then [] else [(name, t)]

/-- One lifecycle phase of `run()`: when the phase is enabled by the
configured event state, await the (retry-wrapped) send and keep
`response.timestamp || event.timestamp`; a throw propagates to the
catch block.  A disabled phase obtains no timestamp. -/
def phaseStep (enabled : Bool) (send : Except Last9Error ChangeEventResponse)
    (eventTimestamp : String) : Except Last9Error (Option String) :=
  if enabled then
    send.map (fun response => some (jsOrOptString response.timestamp eventTimestamp))
  else Except.ok none

/-- `run()`: token acquisition, then the start phase when the configured
state is `start` or `both`, then the stop phase when it is `stop` or
`both`; any throw lands in the catch block.  On full success the
outputs are `success=true` plus the timestamps actually obtained. -/
def runAction (sc : RunScenario) : RunOutcome :=
  match sc.tokenResult with
  | Except.error _ => runFailureOutcome
  | Except.ok _ =>
    match phaseStep (sc.eventState = EventState.start || sc.eventState = EventState.both)
        sc.startSend sc.startEventTimestamp with
    | Except.error _ => runFailureOutcome
    | Except.ok startTimestamp =>
      match phaseStep (sc.eventState = EventState.stop || sc.eventState = EventState.both)
          sc.stopSend sc.stopEventTimestamp with
      | Except.error _ => runFailureOutcome
      | Except.ok stopTimestamp =>
        ⟨("success", "true") ::
            (timestampOutput "start_timestamp" startTimestamp ++
              timestampOutput "stop_timestamp" stopTimestamp),
          false⟩

/-! ## Theorems -/

/-- C8: for every attempt, base ≥ 0, max ≥ base and every
`Math.random()` draw in [0, 1) — equivalently every jitter draw in
[0, 0.3·base·2^attempt) — the computed backoff is at most `max`, and
the pre-clamp value `base·2^attempt + jitter` is at least
`base·2^attempt` (the jitter is nonnegative). -/
theorem calculateBackoff_bounds_C8 (attempt : Nat) (baseMs maxMs rand : ℚ)
    (hbase : 0 ≤ baseMs) (_hmax : baseMs ≤ maxMs) (hr0 : 0 ≤ rand) (_hr1 : rand < 1) :
    calculateBackoff attempt baseMs maxMs rand ≤ maxMs
    ∧ 2 ^ attempt * baseMs ≤ 2 ^ attempt * baseMs + rand * (3 / 10) * (2 ^ attempt * baseMs)
    ∧ 0 ≤ rand * (3 / 10) * (2 ^ attempt * baseMs) := by
  have hjit : (0 : ℚ) ≤ rand * (3 / 10) * (2 ^ attempt * baseMs) := by positivity
  refine ⟨min_le_right _ _, by linarith, hjit⟩

/-- C8 witness: the bounds at attempt 2, base 100 ms, max 1000 ms and
draw one half. -/
theorem calculateBackoff_bounds_C8_witness :
    ((0 : ℚ) ≤ 100 ∧ (100 : ℚ) ≤ 1000 ∧ (0 : ℚ) ≤ 1 / 2 ∧ (1 / 2 : ℚ) < 1)
    ∧ calculateBackoff 2 100 1000 (1 / 2) ≤ 1000
    ∧ 2 ^ 2 * (100 : ℚ) ≤ 2 ^ 2 * 100 + 1 / 2 * (3 / 10) * (2 ^ 2 * 100) := by
  have h := calculateBackoff_bounds_C8 2 100 1000 (1 / 2)
    (by norm_num) (by norm_num) (by norm_num) (by norm_num)
  exact ⟨⟨by norm_num, by norm_num, by norm_num, by norm_num⟩, h.1, h.2.1⟩

/-- C6 (amended): every 4xx status other than 429 and other than 408 is
mapped by `createHttpError` to the Api kind with `retryable = false`.
(408 is excluded because the factory maps it to the retryable Timeout
kind, refuting the claim as stated.) -/
theorem createHttpError_4xx_api_C6 (parseDate : String → Option Int) (nowMs : Int)
    (statusCode : Nat) (msg : String) (hdr : Option String)
    (h4 : 400 ≤ statusCode) (h5 : statusCode ≤ 499)
    (h429 : statusCode ≠ 429) (h408 : statusCode ≠ 408) :
    (createHttpError parseDate nowMs statusCode msg hdr).code = ErrorCode.API_ERROR
    ∧ (createHttpError parseDate nowMs statusCode msg hdr).retryable = false := by
  have hretry : (Last9Error.apiError msg statusCode).retryable = false := by
    simp only [Last9Error.retryable, Bool.or_eq_false_iff, decide_eq_false_iff_not]
    omega
  unfold createHttpError HTTP_STATUS_TOO_MANY_REQUESTS HTTP_STATUS_TIMEOUT
    HTTP_STATUS_GATEWAY_TIMEOUT isServerError isClientError
  split_ifs with h1 h2 h3 h4'
  · exact absurd h1 h429
  · simp only [Bool.or_eq_true, decide_eq_true_eq] at h2
    omega
  · simp only [Bool.and_eq_true, decide_eq_true_eq] at h3
    omega
  · exact ⟨rfl, hretry⟩
  · exact ⟨rfl, hretry⟩

/-- C6 witness: status 404 yields a non-retryable Api-kind error. -/
theorem createHttpError_4xx_api_C6_witness :
    (400 ≤ 404 ∧ 404 ≤ 499 ∧ 404 ≠ 429 ∧ 404 ≠ 408)
    ∧ (createHttpError (fun _ => none) 0 404 "Not found" none).code = ErrorCode.API_ERROR
    ∧ (createHttpError (fun _ => none) 0 404 "Not found" none).retryable = false := by
  have h := createHttpError_4xx_api_C6 (fun _ => none) 0 404 "Not found" none
    (by omega) (by omega) (by omega) (by omega)
  exact ⟨by omega, h⟩

/-- C6 counterexample: 408 is a 4xx status other than 429, yet the
factory does not produce a non-retryable Api-kind error for it (it
produces a retryable Timeout-kind error). -/
theorem createHttpError_408_counterexample_C6 :
    (400 ≤ 408 ∧ 408 ≤ 499 ∧ 408 ≠ 429)
    ∧ ¬ ((createHttpError (fun _ => none) 0 408 "Request timeout" none).code = ErrorCode.API_ERROR
        ∧ (createHttpError (fun _ => none) 0 408 "Request timeout" none).retryable = false) := by
  refine ⟨by omega, ?_⟩
  decide

/-- C7 (amended): a 429 response carries the parsed Retry-After hint;
an integer-seconds header value yields `seconds * 1000` (not clamped),
a date header value yields a delta from now clamped to ≥ 0, and a value
that is neither (or an absent or empty value) yields no hint. -/
theorem parseRetryAfter_spec_C7 (parseDate : String → Option Int) (nowMs : Int) :
    (∀ (msg : String) (hdr : Option String),
        createHttpError parseDate nowMs 429 msg hdr =
          Last9Error.rateLimitError msg (parseRetryAfter parseDate nowMs hdr))
    ∧ (∀ (s : String) (n : Int), s ≠ "" → jsParseInt10 s = some n →
        parseRetryAfter parseDate nowMs (some s) = some (n * 1000))
    ∧ (∀ (s : String) (t : Int), s ≠ "" → jsParseInt10 s = none → parseDate s = some t →
        parseRetryAfter parseDate nowMs (some s) = some (max 0 (t - nowMs))
          ∧ 0 ≤ max 0 (t - nowMs))
    ∧ (∀ s : String, jsParseInt10 s = none → parseDate s = none →
        parseRetryAfter parseDate nowMs (some s) = none)
    ∧ parseRetryAfter parseDate nowMs none = none := by
  refine ⟨?_, ?_, ?_, ?_, rfl⟩
  · intro msg hdr
    rfl
  · intro s n hs hint
    simp only [parseRetryAfter, if_neg hs, hint]
  · intro s t hs hint hdate
    simp only [parseRetryAfter, if_neg hs, hint, hdate]
    exact ⟨trivial, le_max_left _ _⟩
  · intro s hint hdate
    by_cases hs : s = ""
    · simp [parseRetryAfter, hs]
    · simp only [parseRetryAfter, if_neg hs, hint, hdate]

/-- C7 witness: header value 5 (seconds) gives a 5000 ms hint, and an
unparsable value gives none. -/
theorem parseRetryAfter_spec_C7_witness :
    ("5" ≠ "" ∧ jsParseInt10 "5" = some 5)
    ∧ parseRetryAfter (fun _ => none) 0 (some "5") = some (5 * 1000)
    ∧ parseRetryAfter (fun _ => none) 0 (some "soon") = none := by
  have h1 := (parseRetryAfter_spec_C7 (fun _ => none) 0).2.1 "5" 5
    (by decide) (by decide)
  have h2 := (parseRetryAfter_spec_C7 (fun _ => none) 0).2.2.2.1 "soon"
    (by decide) rfl
  exact ⟨⟨by decide, by decide⟩, h1, h2⟩

/-- C7 counterexample: the integer-seconds branch is not clamped to
≥ 0 — a Retry-After value of -5 yields a negative hint of -5000 ms. -/
theorem parseRetryAfter_negative_counterexample_C7 :
    parseRetryAfter (fun _ => none) 0 (some "-5") = some (-5000)
    ∧ (-5000 : Int) < 0 := by
  constructor
  · decide
  · decide

/-- C2 (code bug): `loadConfig` never reads an `env` input, so a set of
inputs with no `env` value loads successfully instead of failing
configuration validation as the README and the caller require. -/
theorem loadConfig_ignores_env_C2 :
    (([("refresh_token", "rt"), ("org_slug", "acme")] : List (String × String)).lookup "env" = none)
    ∧ (loadConfig (fun _ => none) [("refresh_token", "rt"), ("org_slug", "acme")]).isOk = true := by
  constructor
  · decide
  · decide

/-- Every exit of `run()` is either the catch block's outcome or a
fully successful one. -/
lemma runAction_cases (sc : RunScenario) :
    runAction sc = runFailureOutcome ∨ (runAction sc).failed = false := by
  unfold runAction
  split
  · exact Or.inl rfl
  · split
    · exact Or.inl rfl
    · split
      · exact Or.inl rfl
      · exact Or.inr rfl

/-- C1 (amended): when a send fails after an earlier phase already
obtained a timestamp (token and start succeeded, stop send failed), the
invocation reports only `success=false` via the output interface: the
already-obtained start timestamp is NOT reported, because the catch
block sets no timestamp outputs.  In general every failing run reports
exactly the single output `success=false`. -/
theorem run_failure_only_success_false_C1 :
    (∀ (sc : RunScenario) (e : Last9Error),
        sc.eventState = EventState.both →
        sc.tokenResult.isOk = true →
        sc.startSend.isOk = true →
        sc.stopSend = Except.error e →
        runAction sc = ⟨[("success", "false")], true⟩)
    ∧ (∀ sc : RunScenario, (runAction sc).failed = true →
        (runAction sc).outputs = [("success", "false")]) := by
  constructor
  · intro sc e hstate htok hstart hstop
    rcases hok : sc.tokenResult with eo | a
    · rw [hok] at htok
      simp [Except.isOk, Except.toBool] at htok
    rcases hsok : sc.startSend with eo2 | r
    · rw [hsok] at hstart
      simp [Except.isOk, Except.toBool] at hstart
    simp [runAction, hok, hsok, hstop, hstate, phaseStep, Except.map, runFailureOutcome]
  · intro sc h
    rcases runAction_cases sc with hc | hc
    · rw [hc]
      rfl
    · rw [h] at hc
      cases hc

/-- C1 witness: a concrete run with state `both` whose start send
succeeded with timestamp T1 and whose stop send failed. -/
theorem run_failure_only_success_false_C1_witness :
    runAction ⟨EventState.both, Except.ok "token",
        Except.ok ⟨true, none, some "T1"⟩, "E1",
        Except.error (Last9Error.timeoutError "timed out"), "E2"⟩ =
      ⟨[("success", "false")], true⟩ :=
  run_failure_only_success_false_C1.1
    ⟨EventState.both, Except.ok "token",
      Except.ok ⟨true, none, some "T1"⟩, "E1",
      Except.error (Last9Error.timeoutError "timed out"), "E2"⟩
    (Last9Error.timeoutError "timed out") rfl rfl rfl rfl

/-- C1 counterexample: in a run where the start send succeeded (with
timestamp T1) and the stop send then failed, the outputs are exactly
`success=false` — no `start_timestamp` output is set, refuting the
claim that timestamps already obtained are reported on failure. -/
theorem run_partial_output_counterexample_C1 :
    runAction ⟨EventState.both, Except.ok "token",
        Except.ok ⟨true, none, some "T1"⟩, "E1",
        Except.error (Last9Error.serverError "boom" 503), "E2"⟩ =
      ⟨[("success", "false")], true⟩
    ∧ (runAction ⟨EventState.both, Except.ok "token",
        Except.ok ⟨true, none, some "T1"⟩, "E1",
        Except.error (Last9Error.serverError "boom" 503), "E2"⟩).outputs.all
        (fun p => p.1 ≠ "start_timestamp") = true := by
  constructor
  · decide
  · decide

/-- Unfolding of `withRetryGo` when the loop guard fails. -/
lemma withRetryGo_stop {T : Type} (op : Nat → Except Last9Error T) (cfg : RetryConfig)
    (jitter : Nat → ℚ) (attempt : Nat) (lastError : Option Last9Error)
    (h : ¬ ((attempt : Int) < cfg.maxAttempts)) :
    withRetryGo op cfg jitter attempt lastError = throwLastError lastError := by
  rw [withRetryGo.eq_def]
  rw [dif_neg h]

/-- Unfolding of `withRetryGo` on a successful invocation. -/
lemma withRetryGo_step_ok {T : Type} (op : Nat → Except Last9Error T) (cfg : RetryConfig)
    (jitter : Nat → ℚ) (attempt : Nat) (lastError : Option Last9Error) (v : T)
    (h : (attempt : Int) < cfg.maxAttempts) (hop : op attempt = Except.ok v) :
    withRetryGo op cfg jitter attempt lastError = ⟨RetryResult.ok v, 1, []⟩ := by
  rw [withRetryGo.eq_def, dif_pos h, hop]

/-- Unfolding of `withRetryGo` on a failed invocation. -/
lemma withRetryGo_step_err {T : Type} (op : Nat → Except Last9Error T) (cfg : RetryConfig)
    (jitter : Nat → ℚ) (attempt : Nat) (lastError : Option Last9Error) (e : Last9Error)
    (h : (attempt : Int) < cfg.maxAttempts) (hop : op attempt = Except.error e) :
    withRetryGo op cfg jitter attempt lastError =
      handleAttemptFailure cfg jitter attempt e
        (fun _ => withRetryGo op cfg jitter (attempt + 1) (some e)) := by
  rw [withRetryGo.eq_def, dif_pos h, hop]

/-- When every remaining invocation fails with a retryable error, the
loop entered at `attempt` performs all remaining attempts, sleeps after
each but the last, and ends with the error of the final attempt. -/
lemma withRetryGo_fail_all {T : Type} (op : Nat → Except Last9Error T) (cfg : RetryConfig)
    (errs : Nat → Last9Error) (jitter : Nat → ℚ)
    (hfail : ∀ i : Nat, (i : Int) < cfg.maxAttempts →
      op i = Except.error (errs i) ∧ (errs i).retryable = true) :
    ∀ (k attempt : Nat) (lastError : Option Last9Error),
      (cfg.maxAttempts - (attempt : Int)).toNat = k → (attempt : Int) < cfg.maxAttempts →
      withRetryGo op cfg jitter attempt lastError =
        ⟨RetryResult.err (errs (cfg.maxAttempts.toNat - 1)), cfg.maxAttempts.toNat - attempt,
          (List.range' attempt (cfg.maxAttempts.toNat - 1 - attempt)).map
            (fun i => calculateBackoff i cfg.backoffMs cfg.maxBackoffMs (jitter i))⟩ := by
  intro k
  induction k with
  | zero =>
    intro attempt lastError hk h
    omega
  | succ k ih =>
    intro attempt lastError hk h
    obtain ⟨hop, hre⟩ := hfail attempt h
    rw [withRetryGo_step_err op cfg jitter attempt lastError (errs attempt) h hop]
    unfold handleAttemptFailure
    by_cases hlast : (attempt : Int) = cfg.maxAttempts - 1
    · rw [if_pos hlast]
      have h2 : cfg.maxAttempts.toNat - 1 - attempt = 0 := by omega
      have h1 : cfg.maxAttempts.toNat - attempt = 1 := by omega
      have h3 : cfg.maxAttempts.toNat - 1 = attempt := by omega
      rw [h1, h2, h3]
      rfl
    · rw [if_neg hlast]
      have hcond : ¬ ¬ (isRetryableError (errs attempt) = true) := by
        simp [isRetryableError, hre]
      rw [if_neg hcond]
      have hlt : ((attempt + 1 : Nat) : Int) < cfg.maxAttempts := by
        push_cast
        omega
      have hk' : (cfg.maxAttempts - ((attempt + 1 : Nat) : Int)).toNat = k := by
        push_cast
        omega
      rw [ih (attempt + 1) (some (errs attempt)) hk' hlt]
      have hs : cfg.maxAttempts.toNat - 1 - attempt
          = (cfg.maxAttempts.toNat - 1 - (attempt + 1)) + 1 := by
        omega
      have hc : cfg.maxAttempts.toNat - (attempt + 1) + 1 = cfg.maxAttempts.toNat - attempt := by
        omega
      rw [hs, List.range'_succ]
      simp only [List.map_cons, hc]

/-- When the invocations before attempt `k` fail with retryable errors
and attempt `k` succeeds, the loop entered at any `attempt ≤ k` returns
that success after the intermediate sleeps. -/
lemma withRetryGo_success_at {T : Type} (op : Nat → Except Last9Error T) (cfg : RetryConfig)
    (errs : Nat → Last9Error) (jitter : Nat → ℚ) (k : Nat) (v : T)
    (hk : (k : Int) < cfg.maxAttempts) (hop : op k = Except.ok v)
    (hfail : ∀ i : Nat, i < k → op i = Except.error (errs i) ∧ (errs i).retryable = true) :
    ∀ (d attempt : Nat) (lastError : Option Last9Error), attempt + d = k →
      withRetryGo op cfg jitter attempt lastError =
        ⟨RetryResult.ok v, k + 1 - attempt,
          (List.range' attempt (k - attempt)).map
            (fun i => calculateBackoff i cfg.backoffMs cfg.maxBackoffMs (jitter i))⟩ := by
  intro d
  induction d with
  | zero =>
    intro attempt lastError hd
    have ha : attempt = k := by omega
    subst ha
    rw [withRetryGo_step_ok op cfg jitter attempt lastError v hk hop]
    have h1 : attempt + 1 - attempt = 1 := by omega
    have h2 : attempt - attempt = 0 := by omega
    rw [h1, h2]
    rfl
  | succ d ih =>
    intro attempt lastError hd
    have haltk : attempt < k := by omega
    have halt : (attempt : Int) < cfg.maxAttempts := by
      have : (attempt : Int) < (k : Int) := by exact_mod_cast haltk
      omega
    obtain ⟨hop', hre⟩ := hfail attempt haltk
    rw [withRetryGo_step_err op cfg jitter attempt lastError (errs attempt) halt hop']
    unfold handleAttemptFailure
    have hlast : ¬ ((attempt : Int) = cfg.maxAttempts - 1) := by
      have : (attempt : Int) < (k : Int) := by exact_mod_cast haltk
      omega
    rw [if_neg hlast]
    have hcond : ¬ ¬ (isRetryableError (errs attempt) = true) := by
      simp [isRetryableError, hre]
    rw [if_neg hcond]
    rw [ih (attempt + 1) (some (errs attempt)) (by omega)]
    have hs : k - attempt = (k - (attempt + 1)) + 1 := by omega
    have hc : k + 1 - (attempt + 1) + 1 = k + 1 - attempt := by omega
    rw [hs, List.range'_succ]
    simp only [List.map_cons, hc]

/-- A non-retryable failure of the very first invocation ends the run
at once: one call, no sleep, the error propagated as-is. -/
lemma withRetry_first_attempt_error {T : Type} (op : Nat → Except Last9Error T)
    (cfg : RetryConfig) (jitter : Nat → ℚ) (e : Last9Error)
    (hA : 1 ≤ cfg.maxAttempts) (hop : op 0 = Except.error e)
    (hnr : e.retryable = false) :
    withRetry op cfg jitter = ⟨RetryResult.err e, 1, []⟩ := by
  unfold withRetry
  have h0 : ((0 : Nat) : Int) < cfg.maxAttempts := by omega
  rw [withRetryGo_step_err op cfg jitter 0 none e h0 hop]
  unfold handleAttemptFailure
  by_cases hlast : ((0 : Nat) : Int) = cfg.maxAttempts - 1
  · rw [if_pos hlast]
  · rw [if_neg hlast, if_pos]
    simp [isRetryableError, hnr]

/-- C3: when every invocation fails with a retryable error, `withRetry`
invokes the operation exactly `maxAttempts` times, sleeps exactly
`maxAttempts - 1` times (the i-th sleep computed from the zero-indexed
attempt number i), and propagates the last observed error unwrapped;
and success at any attempt `k` returns that result immediately after
`k + 1` calls. -/
theorem withRetry_exhausts_C3 {T : Type} (cfg : RetryConfig)
    (op : Nat → Except Last9Error T) (errs : Nat → Last9Error) (jitter : Nat → ℚ)
    (hA : 1 ≤ cfg.maxAttempts) :
    ((∀ i : Nat, (i : Int) < cfg.maxAttempts →
        op i = Except.error (errs i) ∧ (errs i).retryable = true) →
      withRetry op cfg jitter =
        ⟨RetryResult.err (errs (cfg.maxAttempts.toNat - 1)), cfg.maxAttempts.toNat,
          (List.range (cfg.maxAttempts.toNat - 1)).map
            (fun i => calculateBackoff i cfg.backoffMs cfg.maxBackoffMs (jitter i))⟩)
    ∧ (∀ (k : Nat) (v : T), (k : Int) < cfg.maxAttempts → op k = Except.ok v →
        (∀ i : Nat, i < k → op i = Except.error (errs i) ∧ (errs i).retryable = true) →
        withRetry op cfg jitter =
          ⟨RetryResult.ok v, k + 1,
            (List.range k).map
              (fun i => calculateBackoff i cfg.backoffMs cfg.maxBackoffMs (jitter i))⟩) := by
  constructor
  · intro hfail
    have h0 : ((0 : Nat) : Int) < cfg.maxAttempts := by omega
    have := withRetryGo_fail_all op cfg errs jitter hfail
      (cfg.maxAttempts - ((0 : Nat) : Int)).toNat 0 none rfl h0
    unfold withRetry
    rw [this]
    simp only [Nat.sub_zero, List.range_eq_range']
  · intro k v hk hop hfail
    have := withRetryGo_success_at op cfg errs jitter k v hk hop hfail k 0 none (by omega)
    unfold withRetry
    rw [this]
    simp only [Nat.sub_zero, Nat.add_sub_cancel, List.range_eq_range']

/-- C3 witness: three retryable failures exhaust a 3-attempt policy
with two sleeps; two failures then a success return after three calls
and two sleeps. -/
theorem withRetry_exhausts_C3_witness :
    withRetry (fun _ => (Except.error (Last9Error.networkError "down") : Except Last9Error String))
        ⟨3, 100, 1000⟩ (fun _ => 0) =
      ⟨RetryResult.err (Last9Error.networkError "down"), 3,
        [calculateBackoff 0 100 1000 0, calculateBackoff 1 100 1000 0]⟩
    ∧ withRetry (fun i => if i < 2 then (Except.error (Last9Error.serverError "oops" 503) :
          Except Last9Error String) else Except.ok "done")
        ⟨3, 100, 1000⟩ (fun _ => 0) =
      ⟨RetryResult.ok "done", 3, [calculateBackoff 0 100 1000 0, calculateBackoff 1 100 1000 0]⟩ := by
  constructor
  · have h := (withRetry_exhausts_C3 ⟨3, 100, 1000⟩
      (fun _ => (Except.error (Last9Error.networkError "down") : Except Last9Error String))
      (fun _ => Last9Error.networkError "down") (fun _ => 0) (by decide)).1
      (fun i _ => ⟨rfl, rfl⟩)
    rw [h]
    rfl
  · have h := (withRetry_exhausts_C3 ⟨3, 100, 1000⟩
      (fun i => if i < 2 then (Except.error (Last9Error.serverError "oops" 503) :
        Except Last9Error String) else Except.ok "done")
      (fun _ => Last9Error.serverError "oops" 503) (fun _ => 0) (by decide)).2
      2 "done" (by decide) rfl (fun i hi => ⟨by simp [hi], rfl⟩)
    rw [h]
    rfl

/-- C4: a non-retryable error on the first invocation ends `withRetry`
after exactly one call, no sleep, with that error propagated, for every
policy with `maxAttempts ≥ 1`. -/
theorem withRetry_nonretryable_once_C4 {T : Type} (cfg : RetryConfig)
    (op : Nat → Except Last9Error T) (jitter : Nat → ℚ) (e : Last9Error)
    (hA : 1 ≤ cfg.maxAttempts) (hop : op 0 = Except.error e)
    (hnr : e.retryable = false) :
    withRetry op cfg jitter = ⟨RetryResult.err e, 1, []⟩ :=
  withRetry_first_attempt_error op cfg jitter e hA hop hnr

/-- C4 witness: a Config-kind error with a 5-attempt policy is still
attempted only once. -/
theorem withRetry_nonretryable_once_C4_witness :
    (1 : Int) ≤ 5
    ∧ withRetry (fun _ => (Except.error (Last9Error.configError "bad") : Except Last9Error String))
        ⟨5, 100, 1000⟩ (fun _ => 0) =
      ⟨RetryResult.err (Last9Error.configError "bad"), 1, []⟩ :=
  ⟨by decide,
    withRetry_nonretryable_once_C4 ⟨5, 100, 1000⟩
      (fun _ => Except.error (Last9Error.configError "bad")) (fun _ => 0)
      (Last9Error.configError "bad") (by decide) rfl rfl⟩

/-- C10: with `maxAttempts ≤ 0` the loop body never runs, the operation
is never invoked, and the final `throw lastError` throws the undefined
`lastError` instead of an error object; with `maxAttempts ≥ 1` at least
one attempt is made. -/
theorem withRetry_nonpositive_C10 {T : Type} (cfg : RetryConfig)
    (op : Nat → Except Last9Error T) (jitter : Nat → ℚ) :
    (cfg.maxAttempts ≤ 0 →
      withRetry op cfg jitter = ⟨RetryResult.errUndefined, 0, []⟩)
    ∧ (1 ≤ cfg.maxAttempts → 1 ≤ (withRetry op cfg jitter).calls) := by
  constructor
  · intro h
    unfold withRetry
    rw [withRetryGo_stop op cfg jitter 0 none (by push_cast; omega)]
    rfl
  · intro h
    unfold withRetry
    have h0 : ((0 : Nat) : Int) < cfg.maxAttempts := by omega
    rcases hop : op 0 with e | v
    · rw [withRetryGo_step_err op cfg jitter 0 none e h0 hop]
      unfold handleAttemptFailure
      split_ifs with h1 h2 <;> simp
    · rw [withRetryGo_step_ok op cfg jitter 0 none v h0 hop]

/-- C10 witness: zero attempts yield the undefined throw with no call;
two attempts yield at least one call. -/
theorem withRetry_nonpositive_C10_witness :
    ((0 : Int) ≤ 0
      ∧ withRetry (fun _ => (Except.ok "unit" : Except Last9Error String))
          ⟨0, 100, 1000⟩ (fun _ => 0) = ⟨RetryResult.errUndefined, 0, []⟩)
    ∧ ((1 : Int) ≤ 2
      ∧ 1 ≤ (withRetry (fun _ => (Except.ok "unit" : Except Last9Error String))
          ⟨2, 100, 1000⟩ (fun _ => 0)).calls) :=
  ⟨⟨by decide,
      (withRetry_nonpositive_C10 ⟨0, 100, 1000⟩
        (fun _ => Except.ok "unit") (fun _ => 0)).1 (by decide)⟩,
    ⟨by decide,
      (withRetry_nonpositive_C10 ⟨2, 100, 1000⟩
        (fun _ => Except.ok "unit") (fun _ => 0)).2 (by decide)⟩⟩

/-- A cache hit: a stored entry that is still inside its lease is
returned without touching the exchange operation or the cache. -/
lemma getAccessToken_hit (buf : Int) (keyf : String → String)
    (exch : Except Last9Error TokenResponse) (now : Int) (cache : TokenCache)
    (rt : String) (c : CachedToken) (hc : mapGet cache (keyf rt) = some c)
    (hval : isTokenExpired buf (c.expiresAtMs.fdiv 1000) now = false) :
    getAccessToken buf keyf exch now cache rt = ⟨Except.ok c.accessToken, cache, false⟩ := by
  unfold getAccessToken
  simp only [hc, hval]
  simp

/-- A cache miss (no entry, or an entry outside its lease) takes the
exchange path. -/
lemma getAccessToken_miss (buf : Int) (keyf : String → String)
    (exch : Except Last9Error TokenResponse) (now : Int) (cache : TokenCache)
    (rt : String)
    (h : ∀ c : CachedToken, mapGet cache (keyf rt) = some c →
      isTokenExpired buf (c.expiresAtMs.fdiv 1000) now = true) :
    getAccessToken buf keyf exch now cache rt = exchangeAndCache exch now cache (keyf rt) := by
  unfold getAccessToken
  rcases hc : mapGet cache (keyf rt) with _ | c
  · simp only [hc]
  · simp only [hc, h c hc]
    simp

/-- Deleting a key removes its binding. -/
lemma mapGet_mapDelete (cache : TokenCache) (k : String) :
    mapGet (mapDelete cache k) k = none := by
  induction cache with
  | nil => rfl
  | cons p rest ih =>
    by_cases h : p.1 = k
    · simpa [mapDelete, List.filter_cons, h] using ih
    · simpa [mapDelete, List.filter_cons, h, mapGet] using ih

/-- Millisecond value of the floored second is at most the raw
millisecond value. -/
lemma fdiv_thousand_le (e : Int) : e.fdiv 1000 * 1000 ≤ e := by
  rw [Int.fdiv_eq_ediv e (by norm_num : (0:Int) ≤ 1000)]
  exact Int.ediv_mul_le e (by norm_num)

/-- C5: after a successful exchange at time `t0sec` (seconds) storing
`expires_at = t0sec + 3600` with a 300-second buffer, every call with
the same refresh token strictly before 3300 seconds after the exchange
returns the cached access token without invoking the exchange
operation; every call at or after that instant invokes the exchange
again and replaces the cached entry with a fresh one; and, in general,
a cached token is only ever returned while
`now < expiresAt - bufferSeconds`. -/
theorem tokenCache_lease_C5 (getCacheKey : String → String) (rt a1 r1 : String) (t0sec : Int) :
    getAccessToken 300 getCacheKey (Except.ok ⟨a1, r1, t0sec + 3600⟩) (t0sec * 1000) [] rt =
      ⟨Except.ok a1,
        [(getCacheKey rt, ⟨a1, r1, (t0sec + 3600) * 1000, t0sec * 1000⟩)], true⟩
    ∧ (∀ (now2 : Int) (exchange2 : Except Last9Error TokenResponse),
        now2 < t0sec * 1000 + 3300000 →
        getAccessToken 300 getCacheKey exchange2 now2
            [(getCacheKey rt, ⟨a1, r1, (t0sec + 3600) * 1000, t0sec * 1000⟩)] rt =
          ⟨Except.ok a1,
            [(getCacheKey rt, ⟨a1, r1, (t0sec + 3600) * 1000, t0sec * 1000⟩)], false⟩)
    ∧ (∀ (now2 : Int) (tr2 : TokenResponse),
        t0sec * 1000 + 3300000 ≤ now2 →
        getAccessToken 300 getCacheKey (Except.ok tr2) now2
            [(getCacheKey rt, ⟨a1, r1, (t0sec + 3600) * 1000, t0sec * 1000⟩)] rt =
          ⟨Except.ok tr2.access_token,
            [(getCacheKey rt, ⟨tr2.access_token, tr2.refresh_token, tr2.expires_at * 1000, now2⟩)],
            true⟩)
    ∧ (∀ (buf : Int) (exchange : Except Last9Error TokenResponse) (nowMs : Int)
          (cache : TokenCache) (tok : String),
        (getAccessToken buf getCacheKey exchange nowMs cache tok).exchanged = false →
        ∃ c : CachedToken, mapGet cache (getCacheKey tok) = some c
          ∧ (getAccessToken buf getCacheKey exchange nowMs cache tok).result
              = Except.ok c.accessToken
          ∧ nowMs < c.expiresAtMs - buf * 1000) := by
  have hfd : ((t0sec + 3600) * 1000).fdiv 1000 = t0sec + 3600 :=
    Int.mul_fdiv_cancel _ (by norm_num)
  refine ⟨?_, ?_, ?_, ?_⟩
  · rfl
  · intro now2 exchange2 hnow
    have hget : mapGet [(getCacheKey rt, ⟨a1, r1, (t0sec + 3600) * 1000, t0sec * 1000⟩)]
        (getCacheKey rt) = some ⟨a1, r1, (t0sec + 3600) * 1000, t0sec * 1000⟩ := by
      simp [mapGet]
    have hval : isTokenExpired 300 ((((t0sec + 3600) * 1000 : Int)).fdiv 1000) now2 = false := by
      rw [hfd]
      simp only [isTokenExpired, isExpired, decide_eq_false_iff_not, not_le]
      omega
    exact getAccessToken_hit 300 getCacheKey exchange2 now2 _ rt _ hget hval
  · intro now2 tr2 hnow
    have hval : ∀ c : CachedToken,
        mapGet [(getCacheKey rt, ⟨a1, r1, (t0sec + 3600) * 1000, t0sec * 1000⟩)]
          (getCacheKey rt) = some c →
        isTokenExpired 300 (c.expiresAtMs.fdiv 1000) now2 = true := by
      intro c hc
      simp [mapGet] at hc
      subst hc
      simp only [hfd, isTokenExpired, isExpired, decide_eq_true_eq]
      omega
    rw [getAccessToken_miss 300 getCacheKey (Except.ok tr2) now2 _ rt hval]
    simp [exchangeAndCache, mapSet]
  · intro buf exchange nowMs cache tok hex
    rcases hc : mapGet cache (getCacheKey tok) with _ | c
    · exfalso
      rw [getAccessToken_miss buf getCacheKey exchange nowMs cache tok
        (fun c hcc => absurd (hc ▸ hcc) (by simp))] at hex
      rcases exchange with e | tr <;> simp [exchangeAndCache] at hex
    · by_cases hval : isTokenExpired buf (c.expiresAtMs.fdiv 1000) nowMs = true
      · exfalso
        rw [getAccessToken_miss buf getCacheKey exchange nowMs cache tok
          (fun c' hcc => by
            rw [hc] at hcc
            cases hcc
            exact hval)] at hex
        rcases exchange with e | tr <;> simp [exchangeAndCache] at hex
      · have hval' : isTokenExpired buf (c.expiresAtMs.fdiv 1000) nowMs = false := by
          simpa using hval
        refine ⟨c, rfl, ?_, ?_⟩
        · rw [getAccessToken_hit buf getCacheKey exchange nowMs cache tok c hc hval']
        · have hb : c.expiresAtMs.fdiv 1000 * 1000 ≤ c.expiresAtMs := fdiv_thousand_le _
          simp only [isTokenExpired, isExpired, decide_eq_false_iff_not, not_le] at hval'
          omega

/-- C5 witness: with the exchange at t0 = 1000 s, a call at 4299999 ms
(1 ms inside the lease) hits the cache even though the exchange
operation would fail, and a call at 4300000 ms re-exchanges and
replaces the entry. -/
theorem tokenCache_lease_C5_witness :
    ((4299999 : Int) < 1000 * 1000 + 3300000
      ∧ getAccessToken 300 (fun s => s) (Except.error (Last9Error.networkError "no")) 4299999
          [("rt", ⟨"a1", "r1", (1000 + 3600) * 1000, 1000 * 1000⟩)] "rt" =
        ⟨Except.ok "a1", [("rt", ⟨"a1", "r1", (1000 + 3600) * 1000, 1000 * 1000⟩)], false⟩)
    ∧ ((1000 : Int) * 1000 + 3300000 ≤ 4300000
      ∧ getAccessToken 300 (fun s => s) (Except.ok ⟨"a2", "r2", 9999⟩) 4300000
          [("rt", ⟨"a1", "r1", (1000 + 3600) * 1000, 1000 * 1000⟩)] "rt" =
        ⟨Except.ok (TokenResponse.mk "a2" "r2" 9999).access_token,
          [("rt", ⟨(TokenResponse.mk "a2" "r2" 9999).access_token,
            (TokenResponse.mk "a2" "r2" 9999).refresh_token,
            (TokenResponse.mk "a2" "r2" 9999).expires_at * 1000, 4300000⟩)], true⟩) := by
  refine ⟨⟨by decide, ?_⟩, ⟨by decide, ?_⟩⟩
  · exact (tokenCache_lease_C5 (fun s => s) "rt" "a1" "r1" 1000).2.1 4299999
      (Except.error (Last9Error.networkError "no")) (by decide)
  · exact (tokenCache_lease_C5 (fun s => s) "rt" "a1" "r1" 1000).2.2.1 4300000
      ⟨"a2", "r2", 9999⟩ (by decide)

/-- C9: whenever the exchange path is taken and the exchange fails with
any error — including retryable kinds — `getAccessToken` deletes the
cache entry for the key and throws a TokenExchange-kind error, which is
not retryable; consequently `withRetry` around such a failing token
acquisition performs exactly one attempt regardless of `maxAttempts`. -/
theorem tokenExchange_wraps_C9 (buf : Int) (getCacheKey : String → String) (e : Last9Error)
    (nowMs : Int) (cache : TokenCache) (rt : String)
    (hstale : ∀ c : CachedToken, mapGet cache (getCacheKey rt) = some c →
      isTokenExpired buf (c.expiresAtMs.fdiv 1000) nowMs = true) :
    getAccessToken buf getCacheKey (Except.error e) nowMs cache rt =
      ⟨Except.error (Last9Error.tokenExchangeError
          ("Failed to exchange refresh token: " ++ e.message) none),
        mapDelete cache (getCacheKey rt), true⟩
    ∧ (Last9Error.tokenExchangeError
        ("Failed to exchange refresh token: " ++ e.message) none).retryable = false
    ∧ mapGet (mapDelete cache (getCacheKey rt)) (getCacheKey rt) = none
    ∧ (∀ (cfg : RetryConfig) (jitter : Nat → ℚ), 1 ≤ cfg.maxAttempts →
        withRetry (fun _ => (Except.error (Last9Error.tokenExchangeError
            ("Failed to exchange refresh token: " ++ e.message) none) :
              Except Last9Error String)) cfg jitter =
          ⟨RetryResult.err (Last9Error.tokenExchangeError
              ("Failed to exchange refresh token: " ++ e.message) none), 1, []⟩) := by
  refine ⟨?_, rfl, mapGet_mapDelete _ _, ?_⟩
  · rw [getAccessToken_miss buf getCacheKey (Except.error e) nowMs cache rt hstale]
    rfl
  · intro cfg jitter hA
    exact withRetry_first_attempt_error _ cfg jitter _ hA rfl rfl

/-- C9 witness: a transient (retryable) Network-kind exchange failure
over a stale cache entry is wrapped into a non-retryable TokenExchange
error, the stale entry is deleted, and a 4-attempt retry policy still
performs exactly one attempt. -/
theorem tokenExchange_wraps_C9_witness :
    (Last9Error.networkError "ECONNRESET").retryable = true
    ∧ getAccessToken 300 (fun s => s) (Except.error (Last9Error.networkError "ECONNRESET"))
        99999999999 [("rt", ⟨"old", "r0", 1000, 0⟩)] "rt" =
      ⟨Except.error (Last9Error.tokenExchangeError
          ("Failed to exchange refresh token: "
            ++ (Last9Error.networkError "ECONNRESET").message) none),
        mapDelete [("rt", ⟨"old", "r0", 1000, 0⟩)] "rt", true⟩
    ∧ withRetry (fun _ => (Except.error (Last9Error.tokenExchangeError
          ("Failed to exchange refresh token: "
            ++ (Last9Error.networkError "ECONNRESET").message) none) :
            Except Last9Error String)) ⟨4, 100, 1000⟩ (fun _ => 0) =
      ⟨RetryResult.err (Last9Error.tokenExchangeError
          ("Failed to exchange refresh token: "
            ++ (Last9Error.networkError "ECONNRESET").message) none), 1, []⟩ := by
  have hstale : ∀ c : CachedToken,
      mapGet [("rt", (⟨"old", "r0", 1000, 0⟩ : CachedToken))] ((fun s => s) "rt") = some c →
      isTokenExpired 300 (c.expiresAtMs.fdiv 1000) 99999999999 = true := by
    intro c hc
    simp [mapGet] at hc
    subst hc
    decide
  have h := tokenExchange_wraps_C9 300 (fun s => s) (Last9Error.networkError "ECONNRESET")
    99999999999 [("rt", ⟨"old", "r0", 1000, 0⟩)] "rt" hstale
  exact ⟨rfl, h.1, h.2.2.2 ⟨4, 100, 1000⟩ (fun _ => 0) (by decide)⟩
